import Mathlib

/-!
A shallow embedding of `src/backend/piper_wrapper.py` (class `PiperWrapper`)
and proofs about it.

Modelling conventions:
* Python `float` values are modelled as exact rationals (`ℚ`); the literal
  `0.2` becomes `1/5`.
* Python `str.strip()` / `str.split()` (whitespace versions) are modelled by
  structurally recursive functions over the string's character list
  (`pyStrip`, `pySplit`), using Python's notion of whitespace.
* The external engine subprocess and the filesystem are modelled by an
  explicit environment (`Env`) holding the outcome of each interaction the
  single `synthesize` call performs: the outcome of writing the request line,
  the line produced by `readline`, whether a given path exists, the parsed
  contents of the timings sidecar file if it exists, and the bytes of the
  output wav file if it is readable.
* Exceptions become `Except PiperError`; each constructor corresponds to one
  `raise` site of the source (plus `attributeError` for Python's own
  `AttributeError` raised by attribute access on `None`).
* Filesystem side effects of a call are recorded as a trace of `FsEvent`s so
  that frame conditions (scratch-directory cleanup, "no filesystem logic on
  the unavailable path") are stated as properties of the trace.
-/

namespace PiperModel

/-- Python's whitespace classification for `str.strip()` and `str.split()`. -/
def isPyWhitespace (c : Char) : Bool :=
  c = ' ' || c = '\t' || c = '\n' || c = '\r' || c = '\x0b' || c = '\x0c'

/-- Python `str.strip()` with no arguments: remove leading and trailing
whitespace. -/
def pyStrip (s : String) : String :=
  ⟨((s.data.dropWhile isPyWhitespace).reverse.dropWhile isPyWhitespace).reverse⟩

/-- Helper for `pySplit`: walk the characters, accumulating the current word
in reverse. -/
def pySplitAux : List Char → List Char → List String
  | [], acc => if acc = [] then [] else [⟨acc.reverse⟩]
  | c :: cs, acc =>
      if isPyWhitespace c then
        if acc = [] then pySplitAux cs []
        else ⟨acc.reverse⟩ :: pySplitAux cs []
      else pySplitAux cs (c :: acc)

/-- Python `str.split()` with no arguments: split on runs of whitespace,
discarding empty pieces. -/
def pySplit (s : String) : List String :=
  pySplitAux s.data []

/-- One entry of the `timings` sequence: `{word, startTime, endTime}`. -/
structure TimingEntry where
  word : String
  startTime : ℚ
  endTime : ℚ
  deriving DecidableEq, Repr

/-- The loop body of the fallback estimator in `synthesize`
(`src/backend/piper_wrapper.py` lines 93-104): each word gets a fixed
`0.2`-second slot, the running `start` advancing by `0.2` per word. -/
def fallbackAux : List String → ℚ → List TimingEntry
  | [], _ => []
  | w :: ws, start =>
      { word := w, startTime := start, endTime := start + 1/5 }
        :: fallbackAux ws (start + 1/5)

/-- The fallback timing estimator: `text.split()` then `0.2`s per word
starting at `0.0`. -/
def fallbackTimings (text : String) : List TimingEntry :=
  fallbackAux (pySplit text) 0

/-- The live subprocess state visible to the wrapper: whether `poll()`
returns `None` (still running) and the diagnostic-stream (`stderr`) handle
with its buffered content (`none` models an absent stream), plus the
stdin/stdout handles. -/
structure ProcState where
  running : Bool
  stderrContent : Option String
  hasStdin : Bool
  hasStdout : Bool
  deriving DecidableEq, Repr

/-- `self.process.stderr.read() if self.process.stderr else ""`. -/
def procStderr (p : ProcState) : String :=
  p.stderrContent.getD ""

/-- The manager object: executable name and the optional process session
(`self.process` is `None` when `shutil.which` failed to locate the
executable). -/
structure PiperWrapper where
  executable : String
  process : Option ProcState
  deriving DecidableEq, Repr

/-- Outcome of the `subprocess.run([executable, "--version"], ...)` probe in
`_get_error_message`: either it ran (yielding stdout and stderr text) or it
raised an `OSError` with some message. -/
inductive ProbeOutcome where
  | ran (stdoutText stderrText : String)
  | osError (msg : String)
  deriving DecidableEq, Repr

/-- Python `a or b` on strings: `b` if `a` is empty, else `a`. -/
def pyOrStr (a b : String) : String :=
  if a = "" then b else a

/-- `PiperWrapper._get_error_message` (`src/backend/piper_wrapper.py` lines
144-157): run the executable with `--version`; return stripped stderr, or if
that is empty stripped stdout, or if that is also empty the fixed message
`"Piper executable not found"`; if the probe raises `OSError`, return
`str(exc)`. -/
def getErrorMessage (probe : ProbeOutcome) : String :=
  match probe with
  | .ran stdoutText stderrText =>
      pyOrStr (pyOrStr (pyStrip stderrText) (pyStrip stdoutText)) "Piper executable not found"
  | .osError msg => msg

/-- Outcome of writing the request line to the engine's stdin. -/
inductive WriteOutcome where
  | ok
  | brokenPipe
  deriving DecidableEq, Repr

/-- Outcome of `self.process.stdout.readline()`: a broken pipe, or a string
(the empty string models end-of-stream). -/
inductive ReadOutcome where
  | brokenPipe
  | line (s : String)
  deriving DecidableEq, Repr

/-- The environment of one `synthesize` call: the engine's and filesystem's
behaviour during that call. -/
structure Env where
  probe : ProbeOutcome
  writeOutcome : WriteOutcome
  readOutcome : ReadOutcome
  pathExists : String → Bool
  sidecar : Option (List TimingEntry)
  audioBytes : Option (List ℕ)

/-- Filesystem events a `synthesize` call can perform. -/
inductive FsEvent where
  | createScratchDir
  | removeScratchDir
  | readFile (name : String)
  deriving DecidableEq, Repr

/-- The errors `synthesize`/`terminate` can raise.  All are `RuntimeError`s
in the source, distinguished here by their message prefix, following the
spec's taxonomy; `attributeError` is Python's own `AttributeError` from
attribute access on `None`, and `fileReadError` is the `OSError` raised by
`Path.read_bytes` on a missing file. -/
inductive PiperError where
  | engineUnavailable (msg : String)
  | engineTerminated (msg : String)
  | engineMisconfigured (msg : String)
  | enginePipeBroken (msg : String)
  | engineFailed (msg : String)
  | engineReportedError (msg : String)
  | fileReadError (name : String)
  | attributeError (msg : String)
  deriving DecidableEq, Repr

/-- The result dictionary of a successful `synthesize` call.  `audioContent`
holds the bytes of the output wav file; the base64 transport encoding of the
source is an injective re-encoding irrelevant to every claim and is not
modelled. -/
structure SynthResult where
  audioContent : List ℕ
  mimeType : String
  timings : List TimingEntry
  deriving DecidableEq, Repr

/-- The body of the `with tempfile.TemporaryDirectory()` block of
`synthesize` (`src/backend/piper_wrapper.py` lines 52-108): write the
request, read one response line, interpret it, load sidecar timings or run
the fallback estimator, read the audio bytes.  Returns the outcome together
with the trace of file reads performed inside the scratch logic. -/
def synthBody (p : ProcState) (text : String) (env : Env) :
    Except PiperError SynthResult × List FsEvent :=
  match env.writeOutcome with
  | .brokenPipe =>
      (.error (.enginePipeBroken ("Piper pipe broken: " ++ pyStrip (procStderr p))), [])
  | .ok =>
    match env.readOutcome with
    | .brokenPipe =>
        (.error (.enginePipeBroken ("Piper pipe broken: " ++ pyStrip (procStderr p))), [])
    | .line responseLine =>
      if responseLine = "" then
        (.error (.engineFailed ("Piper failed: " ++ procStderr p)), [])
      else
        let respPath := pyStrip responseLine
        if respPath ≠ "" ∧ env.pathExists respPath = false then
          (.error (.engineReportedError ("Piper error: " ++ respPath)), [])
        else
          match env.sidecar with
          | some ts =>
            match env.audioBytes with
            | none => (.error (.fileReadError "output.wav"), [.readFile "timings.json"])
            | some bytes =>
                (.ok { audioContent := bytes, mimeType := "audio/wav", timings := ts },
                 [.readFile "timings.json", .readFile "output.wav"])
          | none =>
            match env.audioBytes with
            | none => (.error (.fileReadError "output.wav"), [])
            | some bytes =>
                (.ok { audioContent := bytes, mimeType := "audio/wav",
                       timings := fallbackTimings text },
                 [.readFile "output.wav"])

/-- `PiperWrapper.synthesize` (`src/backend/piper_wrapper.py` lines 41-114).
Precondition checks in source order, then the scratch-directory block; the
`with` statement creates the scratch directory on entry and removes it on
every exit, success or exception, which the trace records. -/
def synthesize (w : PiperWrapper) (text : String) (env : Env) :
    Except PiperError SynthResult × List FsEvent :=
  match w.process with
  | none =>
      (.error (.engineUnavailable (getErrorMessage env.probe)), [])
  | some p =>
    if p.running = false then
      (.error (.engineTerminated ("Piper terminated: " ++ pyStrip (procStderr p))), [])
    else if p.hasStdin = false ∨ p.hasStdout = false then
      (.error (.engineMisconfigured "Piper process not started correctly"), [])
    else
      ((synthBody p text env).1,
       FsEvent.createScratchDir ::
         ((synthBody p text env).2 ++ [FsEvent.removeScratchDir]))

/-- `PiperWrapper.terminate` (`src/backend/piper_wrapper.py` lines 159-162).
The source reads `self.process.poll()` unconditionally; when `self.process`
is `None` this attribute access raises `AttributeError`.  When the process is
still running it is terminated (and waited on); when it has already exited
nothing happens. -/
def terminate (w : PiperWrapper) : Except PiperError PiperWrapper :=
  match w.process with
  | none =>
      .error (.attributeError "NoneType object has no attribute poll")
  | some p =>
    if p.running then
      .ok { w with process := some { p with running := false } }
    else
      .ok w

/-! ### Basic lemmas about the fallback estimator -/

theorem fallbackAux_length (ws : List String) (s : ℚ) :
    (fallbackAux ws s).length = ws.length := by
  induction ws generalizing s with
  | nil => rfl
  | cons w ws ih => simp [fallbackAux, ih]

theorem fallbackAux_map_word (ws : List String) (s : ℚ) :
    (fallbackAux ws s).map TimingEntry.word = ws := by
  induction ws generalizing s with
  | nil => rfl
  | cons w ws ih => simp [fallbackAux, ih]

theorem fallbackAux_endTime (ws : List String) (s : ℚ) :
    ∀ e ∈ fallbackAux ws s, e.endTime = e.startTime + 1/5 := by
  induction ws generalizing s with
  | nil => intro e he; simp [fallbackAux] at he
  | cons w ws ih =>
    intro e he
    rw [fallbackAux] at he
    rcases List.mem_cons.mp he with h | h
    · subst h; rfl
    · exact ih (s + 1/5) e h

theorem fallbackAux_chain (ws : List String) (s : ℚ) :
    List.Chain' (fun a b => b.startTime = a.endTime) (fallbackAux ws s) := by
  induction ws generalizing s with
  | nil => exact List.chain'_nil
  | cons w ws ih =>
    rw [fallbackAux]
    refine (List.chain'_cons').mpr ⟨?_, ih (s + 1/5)⟩
    intro y hy
    cases ws with
    | nil => simp [fallbackAux] at hy
    | cons w2 ws2 =>
      rw [fallbackAux] at hy
      simp only [List.head?_cons, Option.mem_def, Option.some.injEq] at hy
      subst hy
      rfl

theorem fallbackAux_head (w : String) (ws : List String) (s : ℚ) :
    (fallbackAux (w :: ws) s).head? =
      some { word := w, startTime := s, endTime := s + 1/5 } := rfl

/-! ### Shape of a successful synthesize call -/

theorem synthBody_ok (p : ProcState) (text : String) (env : Env)
    (r : SynthResult) (hok : (synthBody p text env).1 = .ok r) :
    env.audioBytes = some r.audioContent ∧
      r.mimeType = "audio/wav" ∧
      r.timings = env.sidecar.getD (fallbackTimings text) := by
  rcases env with ⟨pr, wo, ro, pe, sc, ab⟩
  cases wo with
  | brokenPipe => simp [synthBody] at hok
  | ok =>
    cases ro with
    | brokenPipe => simp [synthBody] at hok
    | line l =>
      by_cases hl : l = ""
      · simp [synthBody, hl] at hok
      · by_cases hc : pyStrip l ≠ "" ∧ pe (pyStrip l) = false
        · simp [synthBody, hl, if_pos hc] at hok
        · cases sc with
          | some ts =>
            cases ab with
            | none => simp [synthBody, hl, if_neg hc] at hok
            | some bytes =>
              simp [synthBody, hl, if_neg hc] at hok
              simp [← hok]
          | none =>
            cases ab with
            | none => simp [synthBody, hl, if_neg hc] at hok
            | some bytes =>
              simp [synthBody, hl, if_neg hc] at hok
              simp [← hok]

theorem synthesize_ok (w : PiperWrapper) (text : String) (env : Env)
    (r : SynthResult) (hok : (synthesize w text env).1 = .ok r) :
    env.audioBytes = some r.audioContent ∧
      r.mimeType = "audio/wav" ∧
      r.timings = env.sidecar.getD (fallbackTimings text) := by
  rcases w with ⟨ex, proc⟩
  cases proc with
  | none => simp [synthesize] at hok
  | some p =>
    simp only [synthesize] at hok
    split at hok
    · simp at hok
    · split at hok
      · simp at hok
      · exact synthBody_ok p text env r hok

/-! ### Concrete fixtures for witnesses and counterexamples -/

/-- A healthy session: running, empty diagnostic buffer, both streams. -/
def goodProc : ProcState :=
  { running := true, stderrContent := some "", hasStdin := true, hasStdout := true }

/-- A session whose process has already exited, with buffered diagnostics. -/
def deadProc : ProcState :=
  { running := false, stderrContent := some "boom\n", hasStdin := true, hasStdout := true }

/-- A running session missing its stdin stream. -/
def noStdinProc : ProcState :=
  { running := true, stderrContent := some "", hasStdin := false, hasStdout := true }

/-- A wrapper with a healthy session. -/
def goodWrapper : PiperWrapper := { executable := "piper", process := some goodProc }

/-- A wrapper in the stub state: the executable was never found. -/
def stubWrapper : PiperWrapper := { executable := "piper", process := none }

/-- Build an environment for one call. -/
def mkEnv (probe : ProbeOutcome) (ro : ReadOutcome) (pe : String → Bool)
    (sc : Option (List TimingEntry)) (ab : Option (List ℕ)) : Env :=
  { probe := probe, writeOutcome := .ok, readOutcome := ro, pathExists := pe,
    sidecar := sc, audioBytes := ab }

/-- A normal-path environment: the engine echoes a path that exists, writes
no sidecar, and the audio file holds one byte. -/
def normalEnv : Env :=
  mkEnv (.ran "" "") (.line "/tmp/s/output.wav\n") (fun _ => true) none (some [1])

/-- The result of a fallback-path call with the given text and audio bytes. -/
def fbRes (text : String) (bytes : List ℕ) : SynthResult :=
  { audioContent := bytes, mimeType := "audio/wav", timings := fallbackTimings text }

/-- A sidecar bearing no relation to any fallback estimate. -/
def oddSidecar : List TimingEntry := [{ word := "z", startTime := 3, endTime := 4 }]

/-- An environment on the normal path whose sidecar file exists with contents
`oddSidecar`. -/
def sidecarEnv : Env :=
  mkEnv (.ran "" "") (.line "/tmp/s/output.wav\n") (fun _ => true)
    (some oddSidecar) (some [9])

/-! ### Claim theorems -/

/-- C1: for every non-empty input text, when no sidecar timings file exists,
a successful `synthesize` call returns the fallback timing sequence: one
entry per whitespace-separated word, in word order, first start time `0.0`,
every duration exactly `0.2`, and consecutive entries contiguous (hence
strictly increasing, non-overlapping). -/
theorem spec_C1_fallback_shape (w : PiperWrapper) (text : String) (env : Env)
    (r : SynthResult) (htext : text ≠ "") (hside : env.sidecar = none)
    (hok : (synthesize w text env).1 = .ok r) :
    r.timings.length = (pySplit text).length ∧
    r.timings.map TimingEntry.word = pySplit text ∧
    (∀ e, r.timings.head? = some e → e.startTime = 0) ∧
    (∀ e ∈ r.timings, e.endTime - e.startTime = 1/5) ∧
    (∀ e ∈ r.timings, e.startTime < e.endTime) ∧
    List.Chain' (fun a b => b.startTime = a.endTime) r.timings := by
  obtain ⟨-, -, ht⟩ := synthesize_ok w text env r hok
  rw [hside, Option.getD_none] at ht
  rw [ht]
  unfold fallbackTimings
  refine ⟨fallbackAux_length _ _, fallbackAux_map_word _ _, ?_, ?_, ?_,
    fallbackAux_chain _ _⟩
  · intro e he
    cases hs : pySplit text with
    | nil => rw [hs] at he; simp [fallbackAux] at he
    | cons a as =>
      rw [hs, fallbackAux_head] at he
      injection he with he
      rw [← he]
  · intro e he
    rw [fallbackAux_endTime (pySplit text) 0 e he]
    ring
  · intro e he
    rw [fallbackAux_endTime (pySplit text) 0 e he]
    linarith [show (0:ℚ) < 1/5 by norm_num]

/-- Witness for C1 at the spec's own scenario, text `"hello world"` with no
sidecar. -/
theorem spec_C1_fallback_shape_witness :
    ("hello world" ≠ "" ∧ normalEnv.sidecar = none ∧
      (synthesize goodWrapper "hello world" normalEnv).1 =
        .ok (fbRes "hello world" [1])) ∧
    ((fbRes "hello world" [1]).timings.length = (pySplit "hello world").length ∧
     (fbRes "hello world" [1]).timings.map TimingEntry.word =
        pySplit "hello world" ∧
     (∀ e, (fbRes "hello world" [1]).timings.head? = some e →
        e.startTime = 0) ∧
     (∀ e ∈ (fbRes "hello world" [1]).timings,
        e.endTime - e.startTime = 1/5) ∧
     (∀ e ∈ (fbRes "hello world" [1]).timings, e.startTime < e.endTime) ∧
     List.Chain' (fun a b => b.startTime = a.endTime)
       (fbRes "hello world" [1]).timings) :=
  ⟨⟨by decide, rfl, rfl⟩,
   spec_C1_fallback_shape goodWrapper "hello world" normalEnv
     (fbRes "hello world" [1]) (by decide) rfl rfl⟩

/-- C2 (code bug): `terminate` on a manager whose process is `None` is not a
no-op — the source evaluates `self.process.poll()` unconditionally, which
raises `AttributeError` on `None`. -/
theorem spec_C2_terminate_no_process :
    terminate stubWrapper =
      .error (.attributeError "NoneType object has no attribute poll") := rfl

/-- C3 counterexample: a sidecar whose single entry has `startTime = 1` and
`endTime = 0` is returned verbatim by a successful `synthesize` call, so the
invariant `start_time < end_time` does not hold for sidecar-derived
timings. -/
theorem spec_C3_counterexample :
    (synthesize goodWrapper "w"
        (mkEnv (.ran "" "") (.line "/tmp/s/output.wav\n") (fun _ => true)
          (some [{ word := "w", startTime := 1, endTime := 0 }])
          (some [0]))).1 =
      .ok { audioContent := [0], mimeType := "audio/wav",
            timings := [{ word := "w", startTime := 1, endTime := 0 }] } ∧
    ¬ (TimingEntry.startTime { word := "w", startTime := 1, endTime := 0 } <
        TimingEntry.endTime { word := "w", startTime := 1, endTime := 0 }) :=
  ⟨rfl, by decide⟩

/-- C3 (amended): every entry of a timings sequence produced by the fallback
estimator (no sidecar present) satisfies `start_time < end_time`; sidecar
timings are returned verbatim and are not validated. -/
theorem spec_C3_fallback_entries_ordered (w : PiperWrapper) (text : String)
    (env : Env) (r : SynthResult) (hside : env.sidecar = none)
    (hok : (synthesize w text env).1 = .ok r) :
    ∀ e ∈ r.timings, e.startTime < e.endTime := by
  obtain ⟨-, -, ht⟩ := synthesize_ok w text env r hok
  rw [hside, Option.getD_none] at ht
  rw [ht]
  intro e he
  rw [fallbackAux_endTime (pySplit text) 0 e he]
  linarith [show (0:ℚ) < 1/5 by norm_num]

/-- Witness for the amended C3 on the normal-path environment. -/
theorem spec_C3_fallback_entries_ordered_witness :
    (normalEnv.sidecar = none ∧
      (synthesize goodWrapper "hello world" normalEnv).1 =
        .ok (fbRes "hello world" [1])) ∧
    ∀ e ∈ (fbRes "hello world" [1]).timings, e.startTime < e.endTime :=
  ⟨⟨rfl, rfl⟩,
   spec_C3_fallback_entries_ordered goodWrapper "hello world" normalEnv
     (fbRes "hello world" [1]) rfl rfl⟩

/-- C5: when the sidecar timings file exists, a successful `synthesize` call
returns its parsed contents as the timings, unmodified; the fallback
estimator's output plays no role. -/
theorem spec_C5_sidecar_verbatim (w : PiperWrapper) (text : String) (env : Env)
    (ts : List TimingEntry) (r : SynthResult) (hside : env.sidecar = some ts)
    (hok : (synthesize w text env).1 = .ok r) :
    r.timings = ts := by
  obtain ⟨-, -, ht⟩ := synthesize_ok w text env r hok
  rw [hside] at ht
  exact ht

/-- Witness for C5: a sidecar bearing no relation to the fallback estimate of
`"hello world"` is returned exactly. -/
theorem spec_C5_sidecar_verbatim_witness :
    (sidecarEnv.sidecar = some oddSidecar ∧
     (synthesize goodWrapper "hello world" sidecarEnv).1 =
       .ok { audioContent := [9], mimeType := "audio/wav",
             timings := oddSidecar }) ∧
    ({ audioContent := [9], mimeType := "audio/wav", timings := oddSidecar } :
        SynthResult).timings = oddSidecar :=
  ⟨⟨rfl, rfl⟩,
   spec_C5_sidecar_verbatim goodWrapper "hello world" sidecarEnv oddSidecar
     { audioContent := [9], mimeType := "audio/wav", timings := oddSidecar }
     rfl rfl⟩

/-- C6: when no session exists, `synthesize` fails with `EngineUnavailable`
(message from the version probe) and performs no filesystem work at all: the
event trace is empty, so no scratch directory is created and no file is
touched. -/
theorem spec_C6_unavailable_no_fs (w : PiperWrapper) (text : String)
    (env : Env) (h : w.process = none) :
    synthesize w text env =
      (.error (.engineUnavailable (getErrorMessage env.probe)), []) := by
  rcases w with ⟨ex, proc⟩
  cases proc with
  | none => rfl
  | some p => simp at h

/-- Witness for C6 on the stub wrapper. -/
theorem spec_C6_unavailable_no_fs_witness :
    stubWrapper.process = none ∧
    synthesize stubWrapper "hello" normalEnv =
      (.error (.engineUnavailable (getErrorMessage normalEnv.probe)), []) :=
  ⟨rfl, spec_C6_unavailable_no_fs stubWrapper "hello" normalEnv rfl⟩

/-! ### Unfolding lemmas for the precondition-passing case -/

theorem synthesize_run (p : ProcState) (ex text : String) (env : Env)
    (hrun : p.running = true) (hin : p.hasStdin = true)
    (hout : p.hasStdout = true) :
    synthesize { executable := ex, process := some p } text env =
      ((synthBody p text env).1,
       FsEvent.createScratchDir ::
         ((synthBody p text env).2 ++ [FsEvent.removeScratchDir])) := by
  simp [synthesize, hrun, hin, hout]

theorem synthBody_reported_error (p : ProcState) (text line : String)
    (env : Env) (hw : env.writeOutcome = .ok)
    (hr : env.readOutcome = .line line) (hne : pyStrip line ≠ "")
    (hex : env.pathExists (pyStrip line) = false) :
    (synthBody p text env).1 =
      .error (.engineReportedError ("Piper error: " ++ pyStrip line)) := by
  have hl : line ≠ "" := fun h => hne (by rw [h]; rfl)
  unfold synthBody
  rw [hw, hr]
  simp [hl, hne, hex]

theorem synthBody_normal (p : ProcState) (text line : String) (env : Env)
    (bytes : List ℕ) (hw : env.writeOutcome = .ok)
    (hr : env.readOutcome = .line line) (hl : line ≠ "")
    (hpath : env.pathExists (pyStrip line) = true)
    (hside : env.sidecar = none) (hbytes : env.audioBytes = some bytes) :
    (synthBody p text env).1 =
      .ok { audioContent := bytes, mimeType := "audio/wav",
            timings := fallbackTimings text } := by
  unfold synthBody
  rw [hw, hr, hside, hbytes]
  simp [hl, hpath]

theorem synthBody_reads_only (p : ProcState) (text : String) (env : Env) :
    ∀ ev ∈ (synthBody p text env).2, ∃ n, ev = FsEvent.readFile n := by
  rcases env with ⟨pr, wo, ro, pe, sc, ab⟩
  cases wo with
  | brokenPipe => intro ev hev; simp [synthBody] at hev
  | ok =>
    cases ro with
    | brokenPipe => intro ev hev; simp [synthBody] at hev
    | line l =>
      intro ev hev
      by_cases hl : l = ""
      · simp [synthBody, hl] at hev
      · by_cases hc : pyStrip l ≠ "" ∧ pe (pyStrip l) = false
        · simp [synthBody, hl, if_pos hc] at hev
        · cases sc with
          | some ts =>
            cases ab with
            | none =>
              simp [synthBody, hl, if_neg hc] at hev
              exact ⟨"timings.json", by rw [hev]⟩
            | some bytes =>
              simp [synthBody, hl, if_neg hc] at hev
              rcases hev with h | h
              · exact ⟨"timings.json", by rw [h]⟩
              · exact ⟨"output.wav", by rw [h]⟩
          | none =>
            cases ab with
            | none => simp [synthBody, hl, if_neg hc] at hev
            | some bytes =>
              simp [synthBody, hl, if_neg hc] at hev
              exact ⟨"output.wav", by rw [hev]⟩

/-! ### Remaining claim theorems -/

/-- C4 counterexample: a response line `"\n"` trims to the empty string; the
guard `if resp_path and not Path(resp_path).exists()` is then skipped
entirely, so the call does not fail with `EngineReportedError` — here it even
succeeds, although no file exists at any path. -/
theorem spec_C4_counterexample :
    pyStrip "\n" = "" ∧
    (synthesize goodWrapper "hi"
        (mkEnv (.ran "" "") (.line "\n") (fun _ => false) none (some [1]))).1 =
      .ok (fbRes "hi" [1]) :=
  ⟨by decide, rfl⟩

/-- C4 (amended): for every response line whose whitespace-trimmed form is
non-empty and does not name an existing file, `synthesize` fails with
`EngineReportedError` whose message contains that trimmed line; a line that
trims to the empty string skips the check and proceeds. -/
theorem spec_C4_reported_error (w : PiperWrapper) (p : ProcState)
    (text line : String) (env : Env)
    (hproc : w.process = some p) (hrun : p.running = true)
    (hin : p.hasStdin = true) (hout : p.hasStdout = true)
    (hw : env.writeOutcome = .ok) (hr : env.readOutcome = .line line)
    (hne : pyStrip line ≠ "")
    (hex : env.pathExists (pyStrip line) = false) :
    (synthesize w text env).1 =
      .error (.engineReportedError ("Piper error: " ++ pyStrip line)) := by
  rcases w with ⟨ex, proc⟩
  cases proc with
  | none => simp at hproc
  | some q =>
    have hq : q = p := by injection hproc
    subst hq
    rw [synthesize_run q ex text env hrun hin hout]
    exact synthBody_reported_error q text line env hw hr hne hex

/-- Witness for the amended C4: the spec's own scenario, an engine echoing
`"ERROR: bad model"`. -/
theorem spec_C4_reported_error_witness :
    (pyStrip "ERROR: bad model" ≠ "" ∧
     (mkEnv (.ran "" "") (.line "ERROR: bad model") (fun _ => false) none
        none).pathExists (pyStrip "ERROR: bad model") = false) ∧
    (synthesize goodWrapper "hello"
        (mkEnv (.ran "" "") (.line "ERROR: bad model") (fun _ => false) none
          none)).1 =
      .error (.engineReportedError
        ("Piper error: " ++ pyStrip "ERROR: bad model")) :=
  ⟨⟨by decide, rfl⟩,
   spec_C4_reported_error goodWrapper goodProc "hello" "ERROR: bad model"
     (mkEnv (.ran "" "") (.line "ERROR: bad model") (fun _ => false) none none)
     rfl rfl rfl rfl rfl rfl (by decide) rfl⟩

/-- C7: the `synthesize` preconditions are checked in a fixed order with
distinct failures: no session → `EngineUnavailable`; session exited →
`EngineTerminated` with the buffered stderr in the message; missing streams
→ `EngineMisconfigured`.  Each later clause carries the earlier clauses'
negations as hypotheses, so a later check is reached only when all earlier
ones pass. -/
theorem spec_C7_precondition_order (w : PiperWrapper) (text : String)
    (env : Env) :
    (w.process = none →
      (synthesize w text env).1 =
        .error (.engineUnavailable (getErrorMessage env.probe))) ∧
    (∀ p, w.process = some p → p.running = false →
      (synthesize w text env).1 =
        .error (.engineTerminated
          ("Piper terminated: " ++ pyStrip (procStderr p)))) ∧
    (∀ p, w.process = some p → p.running = true →
      p.hasStdin = false ∨ p.hasStdout = false →
      (synthesize w text env).1 =
        .error (.engineMisconfigured "Piper process not started correctly")) := by
  rcases w with ⟨ex, proc⟩
  refine ⟨?_, ?_, ?_⟩
  · intro h
    cases proc with
    | none => rfl
    | some p => simp at h
  · intro p hp hrun
    cases proc with
    | none => simp at hp
    | some q =>
      have hq : q = p := by injection hp
      subst hq
      simp [synthesize, hrun]
  · intro p hp hrun hs
    cases proc with
    | none => simp at hp
    | some q =>
      have hq : q = p := by injection hp
      subst hq
      rcases hs with h | h
      · simp [synthesize, hrun, h]
      · simp [synthesize, hrun, h]

/-- Witness for C7: each of the three precondition failures at a concrete
wrapper. -/
theorem spec_C7_precondition_order_witness :
    (synthesize stubWrapper "x" normalEnv).1 =
      .error (.engineUnavailable (getErrorMessage normalEnv.probe)) ∧
    (synthesize { executable := "piper", process := some deadProc } "x"
        normalEnv).1 =
      .error (.engineTerminated
        ("Piper terminated: " ++ pyStrip (procStderr deadProc))) ∧
    (synthesize { executable := "piper", process := some noStdinProc } "x"
        normalEnv).1 =
      .error (.engineMisconfigured "Piper process not started correctly") :=
  ⟨(spec_C7_precondition_order stubWrapper "x" normalEnv).1 rfl,
   (spec_C7_precondition_order
      { executable := "piper", process := some deadProc } "x" normalEnv).2.1
     deadProc rfl rfl,
   (spec_C7_precondition_order
      { executable := "piper", process := some noStdinProc } "x" normalEnv).2.2
     noStdinProc rfl rfl (Or.inl rfl)⟩

/-- C8 counterexample: with the probe producing stderr `"err\n"`, the
`EngineUnavailable` message is the stripped string `"err"`, not the verbatim
stderr `"err\n"`. -/
theorem spec_C8_counterexample :
    (synthesize stubWrapper "x"
        (mkEnv (.ran "" "err\n") (.line "") (fun _ => false) none none)).1 =
      .error (.engineUnavailable "err") ∧
    ("err" : String) ≠ "err\n" :=
  ⟨rfl, by decide⟩

/-- C8 (amended): when no session exists the `EngineUnavailable` message
comes from running the executable with `--version`: it is the probe's stderr
stripped of surrounding whitespace; if that is empty, the stripped stdout;
if both strip to empty, the fixed message `"Piper executable not found"`;
and if the probe raises an `OSError`, the raw error text. -/
theorem spec_C8_probe_message (w : PiperWrapper) (text : String) (env : Env)
    (outText errText msg : String) :
    (w.process = none →
      (synthesize w text env).1 =
        .error (.engineUnavailable (getErrorMessage env.probe))) ∧
    (pyStrip errText ≠ "" →
      getErrorMessage (.ran outText errText) = pyStrip errText) ∧
    (pyStrip errText = "" → pyStrip outText ≠ "" →
      getErrorMessage (.ran outText errText) = pyStrip outText) ∧
    (pyStrip errText = "" → pyStrip outText = "" →
      getErrorMessage (.ran outText errText) = "Piper executable not found") ∧
    getErrorMessage (.osError msg) = msg := by
  refine ⟨?_, ?_, ?_, ?_, rfl⟩
  · intro h
    rcases w with ⟨ex, proc⟩
    cases proc with
    | none => rfl
    | some p => simp at h
  · intro h
    simp [getErrorMessage, pyOrStr, h]
  · intro h1 h2
    simp [getErrorMessage, pyOrStr, h1, h2]
  · intro h1 h2
    simp [getErrorMessage, pyOrStr, h1, h2]

/-- Witness for the amended C8 across all four message sources. -/
theorem spec_C8_probe_message_witness :
    (synthesize stubWrapper "x"
        (mkEnv (.ran "" " e \n") (.line "") (fun _ => false) none none)).1 =
      .error (.engineUnavailable
        (getErrorMessage (.ran "" " e \n"))) ∧
    getErrorMessage (.ran "" " e \n") = pyStrip " e \n" ∧
    getErrorMessage (.ran "o\n" "  ") = pyStrip "o\n" ∧
    getErrorMessage (.ran " " "  ") = "Piper executable not found" ∧
    getErrorMessage (.osError "no such file") = "no such file" :=
  ⟨(spec_C8_probe_message stubWrapper "x"
      (mkEnv (.ran "" " e \n") (.line "") (fun _ => false) none none)
      "" " e \n" "no such file").1 rfl,
   (spec_C8_probe_message stubWrapper "x"
      (mkEnv (.ran "" " e \n") (.line "") (fun _ => false) none none)
      "" " e \n" "no such file").2.1 (by decide),
   (spec_C8_probe_message stubWrapper "x"
      (mkEnv (.ran "" " e \n") (.line "") (fun _ => false) none none)
      "o\n" "  " "no such file").2.2.1 (by decide) (by decide),
   (spec_C8_probe_message stubWrapper "x"
      (mkEnv (.ran "" " e \n") (.line "") (fun _ => false) none none)
      " " "  " "no such file").2.2.2.1 (by decide) (by decide),
   (spec_C8_probe_message stubWrapper "x"
      (mkEnv (.ran "" " e \n") (.line "") (fun _ => false) none none)
      " " "  " "no such file").2.2.2.2⟩

/-- C9: on every exit path, the scratch directory never outlives the call:
either the call fails before the scratch block (empty trace), or the trace
is exactly a scratch-directory creation, followed only by file reads,
followed by the scratch-directory removal as the final event. -/
theorem spec_C9_scratch_cleanup (w : PiperWrapper) (text : String)
    (env : Env) :
    (synthesize w text env).2 = [] ∨
    ∃ reads, (∀ ev ∈ reads, ∃ n, ev = FsEvent.readFile n) ∧
      (synthesize w text env).2 =
        FsEvent.createScratchDir :: (reads ++ [FsEvent.removeScratchDir]) := by
  rcases w with ⟨ex, proc⟩
  cases proc with
  | none => exact Or.inl rfl
  | some p =>
    by_cases hrun : p.running = true
    · by_cases hin : p.hasStdin = true
      · by_cases hout : p.hasStdout = true
        · refine Or.inr ⟨(synthBody p text env).2,
            synthBody_reads_only p text env, ?_⟩
          rw [synthesize_run p ex text env hrun hin hout]
        · exact Or.inl (by simp [synthesize, hrun, hout])
      · exact Or.inl (by simp [synthesize, hrun, hin])
    · exact Or.inl (by simp [synthesize, hrun])

/-- Witness for C9 at a concrete successful call. -/
theorem spec_C9_scratch_cleanup_witness :
    (synthesize goodWrapper "hi" normalEnv).2 = [] ∨
    ∃ reads, (∀ ev ∈ reads, ∃ n, ev = FsEvent.readFile n) ∧
      (synthesize goodWrapper "hi" normalEnv).2 =
        FsEvent.createScratchDir :: (reads ++ [FsEvent.removeScratchDir]) :=
  spec_C9_scratch_cleanup goodWrapper "hi" normalEnv

/-- C10: with empty or whitespace-only input text and no sidecar file, a
normal-path call still succeeds and returns an empty timings list together
with the audio bytes and the `audio/wav` mime type. -/
theorem spec_C10_empty_text (w : PiperWrapper) (p : ProcState)
    (text line : String) (env : Env) (bytes : List ℕ)
    (hproc : w.process = some p) (hrun : p.running = true)
    (hin : p.hasStdin = true) (hout : p.hasStdout = true)
    (hw : env.writeOutcome = .ok) (hr : env.readOutcome = .line line)
    (hl : line ≠ "") (hpath : env.pathExists (pyStrip line) = true)
    (hside : env.sidecar = none) (hbytes : env.audioBytes = some bytes)
    (hsplit : pySplit text = []) :
    (synthesize w text env).1 =
      .ok { audioContent := bytes, mimeType := "audio/wav", timings := [] } := by
  have hfb : fallbackTimings text = [] := by
    rw [fallbackTimings, hsplit]
    rfl
  rcases w with ⟨ex, proc⟩
  cases proc with
  | none => simp at hproc
  | some q =>
    have hq : q = p := by injection hproc
    subst hq
    rw [synthesize_run q ex text env hrun hin hout]
    rw [synthBody_normal q text line env bytes hw hr hl hpath hside hbytes, hfb]

/-- Witness for C10 at whitespace-only text `" "`. -/
theorem spec_C10_empty_text_witness :
    (pySplit " " = [] ∧ normalEnv.sidecar = none) ∧
    (synthesize goodWrapper " " normalEnv).1 =
      .ok { audioContent := [1], mimeType := "audio/wav", timings := [] } :=
  ⟨⟨by decide, rfl⟩,
   spec_C10_empty_text goodWrapper goodProc " " "/tmp/s/output.wav\n" normalEnv
     [1] rfl rfl rfl rfl rfl rfl (by decide) rfl rfl rfl (by decide)⟩

end PiperModel
